import Mathlib

/-!
Verification of the sky_sql data-access layer (`src/data.py`).

The file shallowly embeds the module: the flights/airlines tables, the five
parameterized SELECT queries, the `FlightData` methods, and the shared
`_execute_query` helper with its exception handling and scoped connection.
SQL rows are modelled as ordered association lists from column name to value;
queries are evaluated as list comprehensions over the tables, mirroring the
join / filter / projection structure of each SQL statement.
-/

namespace SkySql

/-- A scalar database value: SQLite integers, text, or the numeric result of
`ROUND(..., 2)` (modelled exactly as a rational). -/
inductive Value where
  | int : Int → Value
  | str : String → Value
  | rat : ℚ → Value
deriving DecidableEq, Repr

/-- One result record: an ordered mapping from column name to value, as
produced by `.mappings().all()`. -/
abbrev Row := List (String × Value)

/-- One row of the `flights` table (the columns the queries touch). -/
structure Flight where
  id : Int
  year : Int
  month : Int
  day : Int
  airline : Int               -- foreign key into airlines.ID
  origin_airport : String
  destination_airport : String
  departure_delay : Int
deriving DecidableEq, Repr

/-- One row of the `airlines` table. -/
structure Airline where
  id : Int
  airline : String
deriving DecidableEq, Repr

/-- The dataset the engine reads: the two tables, in physical row order. -/
structure Database where
  flights : List Flight
  airlines : List Airline
deriving DecidableEq, Repr

/-- Projection of `QUERY_FLIGHT_BY_ID`: `flights.*, airlines.airline,
flights.ID as FLIGHT_ID, flights.DEPARTURE_DELAY as DELAY`. -/
def rowById (f : Flight) (a : Airline) : Row :=
  [("ID", Value.int f.id), ("YEAR", Value.int f.year), ("MONTH", Value.int f.month),
   ("DAY", Value.int f.day), ("AIRLINE", Value.int f.airline),
   ("ORIGIN_AIRPORT", Value.str f.origin_airport),
   ("DESTINATION_AIRPORT", Value.str f.destination_airport),
   ("DEPARTURE_DELAY", Value.int f.departure_delay),
   ("airline", Value.str a.airline),
   ("FLIGHT_ID", Value.int f.id),
   ("DELAY", Value.int f.departure_delay)]

/-- `SELECT flights.*, airlines.airline, flights.ID as FLIGHT_ID,
flights.DEPARTURE_DELAY as DELAY FROM flights JOIN airlines
ON flights.airline = airlines.id WHERE flights.ID = :id` -/
def QUERY_FLIGHT_BY_ID (db : Database) (id : Int) : List Row :=
  db.flights.flatMap fun f =>
    (db.airlines.filter fun a => decide (f.airline = a.id ∧ f.id = id)).map fun a =>
      rowById f a

/-- Projection of `QUERY_FLIGHT_BY_DATE`: `ID, ORIGIN_AIRPORT,
DESTINATION_AIRPORT, AIRLINE, DEPARTURE_DELAY AS DELAY`. -/
def rowByDate (f : Flight) : Row :=
  [("ID", Value.int f.id), ("ORIGIN_AIRPORT", Value.str f.origin_airport),
   ("DESTINATION_AIRPORT", Value.str f.destination_airport),
   ("AIRLINE", Value.int f.airline), ("DELAY", Value.int f.departure_delay)]

/-- `SELECT ID, ORIGIN_AIRPORT, DESTINATION_AIRPORT, AIRLINE,
DEPARTURE_DELAY AS DELAY FROM flights WHERE YEAR = :year
AND MONTH = :month AND DAY = :day` -/
def QUERY_FLIGHT_BY_DATE (db : Database) (year month day : Int) : List Row :=
  db.flights.filterMap fun f =>
    if f.year = year ∧ f.month = month ∧ f.day = day then some (rowByDate f) else none

/-- Projection of `QUERY_FLIGHT_BY_AIRLINE`. The source selects
`f.AIRLINE AS ID`: the ID column carries the flight row's airline code,
not the flight's own ID. -/
def rowByAirline (f : Flight) (a : Airline) : Row :=
  [("ID", Value.int f.airline),
   ("ORIGIN_AIRPORT", Value.str f.origin_airport),
   ("DESTINATION_AIRPORT", Value.str f.destination_airport),
   ("AIRLINE", Value.str a.airline),
   ("DELAY", Value.int f.departure_delay)]

/-- `SELECT f.AIRLINE AS ID, f.ORIGIN_AIRPORT AS ORIGIN_AIRPORT,
f.DESTINATION_AIRPORT AS DESTINATION_AIRPORT, a.AIRLINE AS AIRLINE,
f.DEPARTURE_DELAY AS DELAY FROM flights AS f JOIN airlines AS a
ON f.AIRLINE = a.ID WHERE a.AIRLINE = :airline AND f.DEPARTURE_DELAY >= 20` -/
def QUERY_FLIGHT_BY_AIRLINE (db : Database) (airline : String) : List Row :=
  db.flights.flatMap fun f =>
    (db.airlines.filter fun a =>
        decide (f.airline = a.id ∧ a.airline = airline ∧ 20 ≤ f.departure_delay)).map fun a =>
      rowByAirline f a

/-- Projection of `QUERY_FLIGHT_BY_AIRPORT`: here the ID column is
`f.ID AS ID`, the flight's own ID. -/
def rowByAirport (f : Flight) (a : Airline) : Row :=
  [("ID", Value.int f.id),
   ("ORIGIN_AIRPORT", Value.str f.origin_airport),
   ("DESTINATION_AIRPORT", Value.str f.destination_airport),
   ("AIRLINE", Value.str a.airline),
   ("DELAY", Value.int f.departure_delay)]

/-- `SELECT f.ID AS ID, f.ORIGIN_AIRPORT AS ORIGIN_AIRPORT,
f.DESTINATION_AIRPORT AS DESTINATION_AIRPORT, a.AIRLINE AS AIRLINE,
f.DEPARTURE_DELAY AS DELAY FROM flights AS f JOIN airlines AS a
ON f.AIRLINE = a.ID WHERE f.ORIGIN_AIRPORT = :airport
AND f.DEPARTURE_DELAY >= 20` -/
def QUERY_FLIGHT_BY_AIRPORT (db : Database) (airport : String) : List Row :=
  db.flights.flatMap fun f =>
    (db.airlines.filter fun a =>
        decide (f.airline = a.id ∧ f.origin_airport = airport ∧ 20 ≤ f.departure_delay)).map fun a =>
      rowByAirport f a

/-- The join `FROM flights f JOIN airlines a ON f.AIRLINE = a.ID`, as the
list of matched pairs in nested-loop order. -/
def joinedFlights (db : Database) : List (Flight × Airline) :=
  db.flights.flatMap fun f =>
    (db.airlines.filter fun a => decide (f.airline = a.id)).map fun a => (f, a)

/-- SQLite `ROUND(q, 2)`: round to 2 decimals, halves away from zero
(all arguments here are nonnegative, so halves round up). -/
def round2 (q : ℚ) : ℚ := (⌊q * 100 + 1 / 2⌋ : ℚ) / 100

/-- The `GROUP BY a.AIRLINE` group for one airline name. -/
def airlineGroup (db : Database) (name : String) : List (Flight × Airline) :=
  (joinedFlights db).filter fun fa => decide (fa.2.airline = name)

/-- `ROUND(COUNT(CASE WHEN f.DEPARTURE_DELAY > 0 THEN 1 END) * 100.0
/ COUNT(*), 2)` for one group. -/
def delayPercentage (db : Database) (name : String) : ℚ :=
  round2 ((((airlineGroup db name).countP fun fa =>
      decide (0 < fa.1.departure_delay) : ℚ)) * 100 / ((airlineGroup db name).length : ℚ))

/-- The distinct `GROUP BY` keys, in first-appearance order. -/
def groupNames (db : Database) : List String :=
  ((joinedFlights db).map fun fa => fa.2.airline).dedup

/-- `SELECT a.AIRLINE AS airline_name, ROUND(...) AS delay_percentage
FROM flights f JOIN airlines a ON f.AIRLINE = a.ID GROUP BY a.AIRLINE
ORDER BY delay_percentage DESC` -/
def QUERY_DELAY_PERCENTAGE_BY_AIRLINE (db : Database) : List Row :=
  (((groupNames db).map fun n => (n, delayPercentage db n)).mergeSort
      fun x y => decide (y.2 ≤ x.2)).map fun np =>
    [("airline_name", Value.str np.1), ("delay_percentage", Value.rat np.2)]

/-! ### The `FlightData` methods (successful-execution row sets)

Each public method builds its parameter dictionary and hands the matching
query to `_execute_query`; on a successful execution the rows below are
exactly what the driver materializes. -/

/-- `get_flight_by_id(flight_id)`: binds `{'id': flight_id}`. -/
def get_flight_by_id (db : Database) (flight_id : Int) : List Row :=
  QUERY_FLIGHT_BY_ID db flight_id

/-- `get_flights_by_date(flight_day, flight_month, flight_year)`: binds
`{'year': flight_year, 'month': flight_month, 'day': flight_day}`. -/
def get_flights_by_date (db : Database) (flight_day flight_month flight_year : Int) : List Row :=
  QUERY_FLIGHT_BY_DATE db flight_year flight_month flight_day

/-- `get_delayed_flights_by_airline(airline_input)`: binds
`{'airline': airline_input}`. -/
def get_delayed_flights_by_airline (db : Database) (airline_input : String) : List Row :=
  QUERY_FLIGHT_BY_AIRLINE db airline_input

/-- `get_delayed_flights_by_airport(airport_input)`: binds
`{'airport': airport_input}`. -/
def get_delayed_flights_by_airport (db : Database) (airport_input : String) : List Row :=
  QUERY_FLIGHT_BY_AIRPORT db airport_input

/-- `get_delay_percentage_by_airline()`: no parameters. -/
def get_delay_percentage_by_airline (db : Database) : List Row :=
  QUERY_DELAY_PERCENTAGE_BY_AIRLINE db

/-! ### `_execute_query`: exception handling and connection scope

`_execute_query` wraps the body in `try` / `except (OperationalError,
ProgrammingError, IntegrityError)` / `except SQLAlchemyError` /
`except Exception`, and enters the connection through
`with self._engine.connect() as connection`, whose `__exit__` closes the
connection on both the normal and the raising path. -/

/-- A Python exception reaching `_execute_query`'s handlers: the three
database-specific SQLAlchemy classes, any other `SQLAlchemyError` subclass,
or any non-SQLAlchemy exception (carrying its message). -/
inductive PyError where
  | operationalError : String → PyError
  | programmingError : String → PyError
  | integrityError : String → PyError
  | sqlalchemyError : String → PyError
  | nonDatabaseError : String → PyError
deriving DecidableEq, Repr

/-- The `str(error)` payload of the exception. -/
def pyMessage : PyError → String
  | .operationalError m => m
  | .programmingError m => m
  | .integrityError m => m
  | .sqlalchemyError m => m
  | .nonDatabaseError m => m

/-- Membership in the first handler's tuple
`(OperationalError, ProgrammingError, IntegrityError)`. -/
def isDbSpecific : PyError → Bool
  | .operationalError _ => true
  | .programmingError _ => true
  | .integrityError _ => true
  | _ => false

/-- Membership in `SQLAlchemyError` (the three specific classes are its
subclasses). -/
def isSqlalchemy : PyError → Bool
  | .nonDatabaseError _ => false
  | _ => true

/-- The sequential `except` chain: first matching clause prints its
diagnostic; the bare `except Exception` catches everything else. -/
def handlerMessage (e : PyError) : String :=
  if isDbSpecific e then "Database-specific error: " ++ pyMessage e
  else if isSqlalchemy e then "SQLAlchemy error: " ++ pyMessage e
  else "Unexpected error: " ++ pyMessage e

/-- Connection lifecycle events of one `_execute_query` call. -/
inductive ConnEvent where
  | acquire
  | release
deriving DecidableEq, Repr

/-- How the engine behaves on one call: `connect()` raises, `execute` (or
row materialization) raises after the connection opened, or everything
succeeds. -/
inductive EngineBehavior where
  | ok
  | connectFail : PyError → EngineBehavior
  | execFail : PyError → EngineBehavior
deriving DecidableEq, Repr

/-- What one `_execute_query` call produced: the returned list, the printed
diagnostics, and the connection events in order. -/
structure ExecResult where
  rows : List Row
  diagnostics : List String
  events : List ConnEvent
deriving DecidableEq, Repr

/-- The `try` body: `with self._engine.connect() as connection: return
connection.execute(query, params).mappings().all()`. If `connect()` raises,
the `with` block is never entered (no acquire); if execution raises inside
the block, `__exit__` releases the connection before the exception reaches
the `except` clauses. -/
def tryBody (beh : EngineBehavior) (rows : List Row) :
    List ConnEvent × Except PyError (List Row) :=
  match beh with
  | .connectFail e => ([], .error e)
  | .execFail e => ([.acquire, .release], .error e)
  | .ok => ([.acquire, .release], .ok rows)

/-- `FlightData._execute_query`: run the body; a raised exception is caught
by the handler chain, printed, and replaced by `return []`. -/
def execute_query (beh : EngineBehavior) (rows : List Row) : ExecResult :=
  match tryBody beh rows with
  | (evs, .ok rs) => ⟨rs, [], evs⟩
  | (evs, .error e) => ⟨[], [handlerMessage e], evs⟩

/-- One public lookup method together with its arguments. -/
inductive Method where
  | byId : Int → Method
  | byDate : Int → Int → Int → Method
  | byAirline : String → Method
  | byAirport : String → Method
  | delayPercentageByAirline : Method
deriving DecidableEq, Repr

/-- The rows a successful execution of the method's query materializes. -/
def methodQuery (db : Database) : Method → List Row
  | .byId flight_id => get_flight_by_id db flight_id
  | .byDate d m y => get_flights_by_date db d m y
  | .byAirline name => get_delayed_flights_by_airline db name
  | .byAirport code => get_delayed_flights_by_airport db code
  | .delayPercentageByAirline => get_delay_percentage_by_airline db

/-- One call of a public lookup method: every method delegates to
`_execute_query` with its query and parameter dictionary. -/
def runMethod (db : Database) (beh : EngineBehavior) (m : Method) : ExecResult :=
  execute_query beh (methodQuery db m)

/-- A call viewed with the dataset threaded through: every query is a
read-only SELECT, so the dataset after the call is the dataset before it. -/
def methodCall (db : Database) (beh : EngineBehavior) (m : Method) :
    ExecResult × Database :=
  (runMethod db beh m, db)

/-! ### Construction (`__init__` / `create_engine`) -/

/-- The engine handle `create_engine` returns. -/
structure Engine where
  uri : String
deriving DecidableEq, Repr

/-- `create_engine(db_uri)`: the driver resolves the URI and either returns
an engine or raises. -/
def create_engine (driver : String → Except PyError Engine) (db_uri : String) :
    Except PyError Engine :=
  driver db_uri

/-- The constructed object: `self._engine = create_engine(db_uri)`. -/
structure FlightData where
  engine : Engine
deriving DecidableEq, Repr

/-- `FlightData.__init__(db_uri)`: no `try`/`except` around `create_engine`,
so a driver failure propagates to the caller unchanged. -/
def FlightData.init (driver : String → Except PyError Engine) (db_uri : String) :
    Except PyError FlightData :=
  match create_engine driver db_uri with
  | .ok e => .ok ⟨e⟩
  | .error err => .error err

/-! ### Concrete datasets used to instantiate the theorems -/

/-- A one-flight dataset. The flight's own ID (7) differs from its airline
code (3), so it separates the two candidate meanings of the ID column. -/
def bugDb : Database :=
  { flights := [⟨7, 2015, 3, 1, 3, "JFK", "LAX", 25⟩],
    airlines := [⟨3, "AA"⟩] }

/-- The spec's §8 example dataset, extended with two decoy flights whose
date fields are permutations of (2015, 3, 1): either decoy would match if
`get_flights_by_date` bound its arguments in the wrong order. -/
def exampleDb : Database :=
  { flights := [⟨7, 2015, 3, 1, 3, "JFK", "LAX", 25⟩,
                ⟨8, 1, 3, 2015, 3, "SFO", "ORD", 30⟩,
                ⟨9, 2015, 1, 3, 3, "BOS", "MIA", 40⟩],
    airlines := [⟨3, "AA"⟩] }

/-- A two-airline dataset: airline AA has one delayed flight out of two
(50%), airline BB has one out of one (100%). -/
def wdb : Database :=
  { flights := [⟨1, 2015, 1, 1, 1, "JFK", "LAX", 25⟩,
                ⟨2, 2015, 1, 2, 1, "JFK", "LAX", 0⟩,
                ⟨3, 2015, 1, 3, 2, "SFO", "ORD", 5⟩],
    airlines := [⟨1, "AA"⟩, ⟨2, "BB"⟩] }

/-- The `delay_percentage` value of a result row of the aggregate query
(0 when the column is absent), used to state the descending sort order. -/
def pctOf (r : Row) : ℚ :=
  match List.lookup "delay_percentage" r with
  | some (Value.rat q) => q
  | _ => 0

/-! ### Helper lemmas -/

lemma sum_map_ite {α : Type} (l : List α) (p : α → Prop) [DecidablePred p] :
    (l.map fun a => if p a then 1 else 0).sum = l.countP fun a => decide (p a) := by
  induction l with
  | nil => simp
  | cons a t ih =>
    rw [List.map_cons, List.sum_cons, List.countP_cons, ih]
    by_cases h : p a
    · simp only [if_pos h, decide_eq_true h, if_pos rfl]
      exact Nat.add_comm 1 _
    · simp [h]

lemma countP_decide_eq_count {α β : Type} [DecidableEq β] (g : α → β) (l : List α) (x : β) :
    (l.countP fun a => decide (x = g a)) = (l.map g).count x := by
  rw [List.count_eq_countP, List.countP_map]
  refine List.countP_congr fun a _ => ?_
  simp only [Function.comp, decide_eq_true_eq, beq_iff_eq]
  exact eq_comm

lemma mem_query_by_airline {db : Database} {name : String} {r : Row}
    (hr : r ∈ QUERY_FLIGHT_BY_AIRLINE db name) :
    ∃ f a, f ∈ db.flights ∧ a ∈ db.airlines ∧ f.airline = a.id ∧ a.airline = name ∧
      20 ≤ f.departure_delay ∧ r = rowByAirline f a := by
  rw [QUERY_FLIGHT_BY_AIRLINE, List.mem_flatMap] at hr
  obtain ⟨f, hf, hr⟩ := hr
  rw [List.mem_map] at hr
  obtain ⟨a, ha, rfl⟩ := hr
  rw [List.mem_filter] at ha
  have hpred := ha.2
  simp only [decide_eq_true_eq] at hpred
  exact ⟨f, a, hf, ha.1, hpred.1, hpred.2.1, hpred.2.2, rfl⟩

lemma mem_query_by_airport {db : Database} {code : String} {r : Row}
    (hr : r ∈ QUERY_FLIGHT_BY_AIRPORT db code) :
    ∃ f a, f ∈ db.flights ∧ a ∈ db.airlines ∧ f.airline = a.id ∧ f.origin_airport = code ∧
      20 ≤ f.departure_delay ∧ r = rowByAirport f a := by
  rw [QUERY_FLIGHT_BY_AIRPORT, List.mem_flatMap] at hr
  obtain ⟨f, hf, hr⟩ := hr
  rw [List.mem_map] at hr
  obtain ⟨a, ha, rfl⟩ := hr
  rw [List.mem_filter] at ha
  have hpred := ha.2
  simp only [decide_eq_true_eq] at hpred
  exact ⟨f, a, hf, ha.1, hpred.1, hpred.2.1, hpred.2.2, rfl⟩

lemma round2_nonneg {q : ℚ} (h : 0 ≤ q) : 0 ≤ round2 q := by
  unfold round2
  apply div_nonneg _ (by norm_num)
  have hz : (0 : ℤ) ≤ ⌊q * 100 + 1 / 2⌋ := Int.floor_nonneg.mpr (by linarith)
  exact_mod_cast hz

lemma round2_le_100 {q : ℚ} (h : q ≤ 100) : round2 q ≤ 100 := by
  unfold round2
  rw [div_le_iff₀ (by norm_num : (0:ℚ) < 100)]
  have h1 : ⌊q * 100 + 1 / 2⌋ ≤ ⌊(10000 : ℚ) + 1 / 2⌋ := Int.floor_le_floor (by linarith)
  have h2 : ⌊(10000 : ℚ) + 1 / 2⌋ = 10000 := Int.floor_eq_iff.mpr (by norm_num)
  have h3 : (⌊q * 100 + 1 / 2⌋ : ℚ) ≤ 10000 := by exact_mod_cast h1.trans_eq h2
  linarith

lemma delayPercentage_nonneg (db : Database) (name : String) :
    0 ≤ delayPercentage db name := by
  unfold delayPercentage
  apply round2_nonneg
  positivity

lemma airlineGroup_length_pos {db : Database} {name : String} (h : name ∈ groupNames db) :
    0 < (airlineGroup db name).length := by
  rw [groupNames, List.mem_dedup, List.mem_map] at h
  obtain ⟨fa, hfa, hname⟩ := h
  refine List.length_pos_of_mem (a := fa) ?_
  rw [airlineGroup, List.mem_filter]
  exact ⟨hfa, by simp [hname]⟩

lemma delayPercentage_le_100 {db : Database} {name : String} (h : name ∈ groupNames db) :
    delayPercentage db name ≤ 100 := by
  unfold delayPercentage
  apply round2_le_100
  have hlen : 0 < (airlineGroup db name).length := airlineGroup_length_pos h
  rw [div_le_iff₀ (by exact_mod_cast hlen : (0:ℚ) < ((airlineGroup db name).length : ℚ))]
  have hc : ((airlineGroup db name).countP fun fa => decide (0 < fa.1.departure_delay))
      ≤ (airlineGroup db name).length := List.countP_le_length _
  have hc' : (((airlineGroup db name).countP fun fa => decide (0 < fa.1.departure_delay)) : ℚ)
      ≤ ((airlineGroup db name).length : ℚ) := by exact_mod_cast hc
  nlinarith

/-! ### Claim theorems -/

/-- Claim C1: for every lookup method and every input, any failure raised
during query execution — on connect or during execution, database-specific
or not — is caught inside `_execute_query`, a diagnostic is printed, and
the method returns an empty list; the result type carries no exception, so
no per-query failure reaches the caller. -/
theorem per_query_failures_recovered (db : Database) (beh : EngineBehavior) (m : Method)
    (hfail : beh ≠ EngineBehavior.ok) :
    (runMethod db beh m).rows = [] ∧ (runMethod db beh m).diagnostics.length = 1 := by
  cases beh with
  | ok => exact absurd rfl hfail
  | connectFail e => exact ⟨rfl, rfl⟩
  | execFail e => exact ⟨rfl, rfl⟩

/-- Witness for C1 at a concrete failing call. -/
theorem per_query_failures_recovered_witness :
    (runMethod ⟨[], []⟩ (EngineBehavior.execFail (PyError.operationalError "boom"))
        (Method.byId 1)).rows = [] ∧
    (runMethod ⟨[], []⟩ (EngineBehavior.execFail (PyError.operationalError "boom"))
        (Method.byId 1)).diagnostics.length = 1 :=
  per_query_failures_recovered ⟨[], []⟩ _ _ (by decide)

/-- Claim C2 (failing input): on a dataset whose only flight has ID 7 and
airline code 3, the row returned by `get_delayed_flights_by_airline` holds 3
— the flight's airline foreign key, selected by `f.AIRLINE AS ID` — in its
ID column, not the flight's own ID 7. -/
theorem by_airline_id_column_holds_airline_code :
    get_delayed_flights_by_airline bugDb "AA" =
      [[("ID", Value.int 3), ("ORIGIN_AIRPORT", Value.str "JFK"),
        ("DESTINATION_AIRPORT", Value.str "LAX"),
        ("AIRLINE", Value.str "AA"), ("DELAY", Value.int 25)]] ∧
    List.lookup "ID" ((get_delayed_flights_by_airline bugDb "AA").headD [])
      = some (Value.int 3) ∧
    List.lookup "ID" ((get_delayed_flights_by_airline bugDb "AA").headD [])
      ≠ some (Value.int 7) := by
  decide

/-- Claim C3: every row either delayed-flights query returns carries a
DELAY value that is an integer at least 20, for every dataset, input, and
engine behavior (a failed execution returns no rows at all). -/
theorem delayed_flights_delay_ge_20 (db : Database) (beh : EngineBehavior)
    (name code : String) (r : Row) (v : Value)
    (hr : r ∈ (runMethod db beh (Method.byAirline name)).rows
        ∨ r ∈ (runMethod db beh (Method.byAirport code)).rows)
    (hv : List.lookup "DELAY" r = some v) :
    ∃ d : Int, v = Value.int d ∧ 20 ≤ d := by
  have hrows : ∀ m : Method, (runMethod db beh m).rows = [] ∨
      (runMethod db beh m).rows = methodQuery db m := by
    intro m
    cases beh with
    | ok => exact Or.inr rfl
    | connectFail e => exact Or.inl rfl
    | execFail e => exact Or.inl rfl
  rcases hr with hr | hr
  · rcases hrows (Method.byAirline name) with h | h
    · rw [h] at hr; exact absurd hr (List.not_mem_nil r)
    · rw [h] at hr
      obtain ⟨f, a, _, _, _, _, hd, rfl⟩ := mem_query_by_airline hr
      have hl : List.lookup "DELAY" (rowByAirline f a)
          = some (Value.int f.departure_delay) := by
        simp [rowByAirline, List.lookup]
      rw [hl] at hv
      exact ⟨f.departure_delay, (Option.some.inj hv).symm, hd⟩
  · rcases hrows (Method.byAirport code) with h | h
    · rw [h] at hr; exact absurd hr (List.not_mem_nil r)
    · rw [h] at hr
      obtain ⟨f, a, _, _, _, _, hd, rfl⟩ := mem_query_by_airport hr
      have hl : List.lookup "DELAY" (rowByAirport f a)
          = some (Value.int f.departure_delay) := by
        simp [rowByAirport, List.lookup]
      rw [hl] at hv
      exact ⟨f.departure_delay, (Option.some.inj hv).symm, hd⟩

/-- Witness for C3 at a concrete row of `get_delayed_flights_by_airline`. -/
theorem delayed_flights_delay_ge_20_witness :
    ∃ d : Int, Value.int 25 = Value.int d ∧ 20 ≤ d :=
  delayed_flights_delay_ge_20 bugDb EngineBehavior.ok "AA" "XXX"
    [("ID", Value.int 3), ("ORIGIN_AIRPORT", Value.str "JFK"),
     ("DESTINATION_AIRPORT", Value.str "LAX"), ("AIRLINE", Value.str "AA"),
     ("DELAY", Value.int 25)] (Value.int 25) (Or.inl (by decide)) (by decide)

/-- Claim C4: the aggregate query returns one row per distinct airline of
the join, each row's percentage is `ROUND(count(delay>0)*100/count(*), 2)`
for that airline's group and lies in [0,100], and the returned sequence is
sorted by percentage in descending order. -/
theorem delay_percentage_by_airline_spec (db : Database) :
    ((get_delay_percentage_by_airline db).length = (groupNames db).length) ∧
    (∀ n ∈ groupNames db,
      ((get_delay_percentage_by_airline db).countP fun r =>
        decide (List.lookup "airline_name" r = some (Value.str n))) = 1) ∧
    (∀ r ∈ get_delay_percentage_by_airline db,
      ∃ n q, r = [("airline_name", Value.str n), ("delay_percentage", Value.rat q)] ∧
        n ∈ groupNames db ∧
        q = round2 ((((airlineGroup db n).countP fun fa =>
            decide (0 < fa.1.departure_delay) : ℚ)) * 100
          / ((airlineGroup db n).length : ℚ)) ∧
        0 ≤ q ∧ q ≤ 100) ∧
    List.Pairwise (fun r s => pctOf s ≤ pctOf r) (get_delay_percentage_by_airline db) := by
  refine ⟨?_, ?_, ?_, ?_⟩
  · rw [get_delay_percentage_by_airline, QUERY_DELAY_PERCENTAGE_BY_AIRLINE, List.length_map,
      (List.mergeSort_perm _ _).length_eq, List.length_map]
  · intro n hn
    rw [get_delay_percentage_by_airline, QUERY_DELAY_PERCENTAGE_BY_AIRLINE, List.countP_map,
      (List.mergeSort_perm _ _).countP_eq, List.countP_map]
    have hcongr : (((groupNames db)).countP
          (((fun r => decide (List.lookup "airline_name" r = some (Value.str n))) ∘
            fun np : String × ℚ =>
              [("airline_name", Value.str np.1), ("delay_percentage", Value.rat np.2)]) ∘
            fun x => (x, delayPercentage db x)))
        = (groupNames db).countP fun x => decide (x = n) := by
      refine List.countP_congr fun x _ => ?_
      simp [List.lookup]
    rw [hcongr]
    have hcount : (groupNames db).countP (fun x => decide (x = n))
        = (groupNames db).count n := by
      rw [List.count_eq_countP]
      exact List.countP_congr fun x _ => by simp [beq_iff_eq]
    rw [hcount]
    exact List.count_eq_one_of_mem (List.nodup_dedup _) hn
  · intro r hr
    rw [get_delay_percentage_by_airline, QUERY_DELAY_PERCENTAGE_BY_AIRLINE, List.mem_map] at hr
    obtain ⟨np, hnp, rfl⟩ := hr
    have hnp' : np ∈ (groupNames db).map fun n => (n, delayPercentage db n) :=
      (List.mergeSort_perm _ _).mem_iff.mp hnp
    rw [List.mem_map] at hnp'
    obtain ⟨n, hn, rfl⟩ := hnp'
    exact ⟨n, delayPercentage db n, rfl, hn, rfl,
      delayPercentage_nonneg db n, delayPercentage_le_100 hn⟩
  · rw [get_delay_percentage_by_airline, QUERY_DELAY_PERCENTAGE_BY_AIRLINE, List.pairwise_map]
    have htrans : ∀ a b c : String × ℚ, (fun x y : String × ℚ => decide (y.2 ≤ x.2)) a b = true →
        (fun x y : String × ℚ => decide (y.2 ≤ x.2)) b c = true →
        (fun x y : String × ℚ => decide (y.2 ≤ x.2)) a c = true := by
      intro a b c hab hbc
      simp only [decide_eq_true_eq] at *
      exact le_trans hbc hab
    have htotal : ∀ a b : String × ℚ, ((fun x y : String × ℚ => decide (y.2 ≤ x.2)) a b ||
        (fun x y : String × ℚ => decide (y.2 ≤ x.2)) b a) = true := by
      intro a b
      simp only [Bool.or_eq_true, decide_eq_true_eq]
      exact le_total b.2 a.2
    have hs := List.sorted_mergeSort htrans htotal
      ((groupNames db).map fun n => (n, delayPercentage db n))
    refine hs.imp ?_
    intro a b hab
    simp only [decide_eq_true_eq] at hab
    have hpa : pctOf [("airline_name", Value.str a.1), ("delay_percentage", Value.rat a.2)]
        = a.2 := by simp [pctOf, List.lookup]
    have hpb : pctOf [("airline_name", Value.str b.1), ("delay_percentage", Value.rat b.2)]
        = b.2 := by simp [pctOf, List.lookup]
    rw [hpa, hpb]
    exact hab

/-- Witness for C4 on the two-airline dataset. -/
theorem delay_percentage_by_airline_spec_witness :
    ((get_delay_percentage_by_airline wdb).countP fun r =>
      decide (List.lookup "airline_name" r = some (Value.str "AA"))) = 1 ∧
    (get_delay_percentage_by_airline wdb).length = (groupNames wdb).length :=
  ⟨(delay_percentage_by_airline_spec wdb).2.1 "AA" (by decide),
   (delay_percentage_by_airline_spec wdb).1⟩

/-- Claim C5: on a dataset with unique flight IDs, unique airline IDs, and
referential integrity of the airline foreign key, `get_flight_by_id`
returns exactly one record whose FLIGHT_ID column equals the input when the
ID is present, and the empty list when it is absent. -/
theorem get_flight_by_id_spec (db : Database) (pid : Int)
    (hf : (db.flights.map Flight.id).Nodup)
    (ha : (db.airlines.map Airline.id).Nodup)
    (href : ∀ f ∈ db.flights, f.airline ∈ db.airlines.map Airline.id) :
    (pid ∈ db.flights.map Flight.id →
      (get_flight_by_id db pid).length = 1 ∧
      ∀ r ∈ get_flight_by_id db pid, List.lookup "FLIGHT_ID" r = some (Value.int pid)) ∧
    (pid ∉ db.flights.map Flight.id → get_flight_by_id db pid = []) := by
  constructor
  · intro hmem
    constructor
    · rw [get_flight_by_id, QUERY_FLIGHT_BY_ID, List.length_flatMap]
      have hstep : ∀ f ∈ db.flights,
          (List.length ∘ fun f => (db.airlines.filter fun a =>
            decide (f.airline = a.id ∧ f.id = pid)).map fun a => rowById f a) f
          = if pid = f.id then 1 else 0 := by
        intro f hfmem
        simp only [Function.comp, List.length_map, ← List.countP_eq_length_filter]
        by_cases h : pid = f.id
        · rw [if_pos h]
          have hcongr : (db.airlines.countP fun a => decide (f.airline = a.id ∧ f.id = pid))
              = db.airlines.countP fun a => decide (f.airline = a.id) := by
            refine List.countP_congr fun a _ => ?_
            simp only [decide_eq_true_eq]
            exact ⟨fun hx => hx.1, fun hx => ⟨hx, h.symm⟩⟩
          rw [hcongr, countP_decide_eq_count]
          exact List.count_eq_one_of_mem ha (href f hfmem)
        · rw [if_neg h, List.countP_eq_zero]
          intro a _
          simp only [decide_eq_true_eq, not_and]
          exact fun _ hid => absurd hid.symm h
      rw [List.map_congr_left hstep, sum_map_ite, countP_decide_eq_count]
      exact List.count_eq_one_of_mem hf hmem
    · intro r hr
      rw [get_flight_by_id, QUERY_FLIGHT_BY_ID, List.mem_flatMap] at hr
      obtain ⟨f, hfmem, hr⟩ := hr
      rw [List.mem_map] at hr
      obtain ⟨a, hamem, rfl⟩ := hr
      rw [List.mem_filter] at hamem
      have hpred := hamem.2
      simp only [decide_eq_true_eq] at hpred
      rw [← hpred.2]
      simp [rowById, List.lookup]
  · intro hmem
    rw [get_flight_by_id, QUERY_FLIGHT_BY_ID, List.flatMap_eq_nil_iff]
    intro f hfmem
    rw [List.map_eq_nil_iff, List.filter_eq_nil_iff]
    intro a _
    simp only [decide_eq_true_eq, not_and]
    intro _ hid
    exact hmem (by rw [← hid]; exact List.mem_map_of_mem Flight.id hfmem)

/-- Witness for C5: a present ID yields one record, an absent one none. -/
theorem get_flight_by_id_spec_witness :
    (get_flight_by_id bugDb 7).length = 1 ∧ get_flight_by_id bugDb 99 = [] :=
  ⟨((get_flight_by_id_spec bugDb 7 (by decide) (by decide) (by decide)).1 (by decide)).1,
   (get_flight_by_id_spec bugDb 99 (by decide) (by decide) (by decide)).2 (by decide)⟩

/-- Claim C6: each call acquires exactly one scoped connection and releases
it on every exit path — the acquire/release counts balance for every
behavior, and both the successful and the raising execution produce the
trace acquire-then-release (when `connect()` itself raises, no connection
was ever acquired). -/
theorem connection_scoped_release (db : Database) (beh : EngineBehavior) (m : Method) :
    ((runMethod db beh m).events.count ConnEvent.acquire
      = (runMethod db beh m).events.count ConnEvent.release) ∧
    (runMethod db EngineBehavior.ok m).events = [ConnEvent.acquire, ConnEvent.release] ∧
    ∀ e, (runMethod db (EngineBehavior.execFail e) m).events
      = [ConnEvent.acquire, ConnEvent.release] := by
  refine ⟨?_, rfl, fun e => rfl⟩
  cases beh <;> rfl

/-- Claim C7: calling any lookup method twice with identical inputs leaves
the dataset unchanged (all queries are SELECTs) and returns identical
results — same rows, same mappings, same order. -/
theorem lookup_idempotent (db : Database) (beh : EngineBehavior) (m : Method) :
    (methodCall (methodCall db beh m).2 beh m).1 = (methodCall db beh m).1 ∧
    (methodCall (methodCall db beh m).2 beh m).1.rows = (methodCall db beh m).1.rows :=
  ⟨rfl, rfl⟩

/-- Claim C8: a failure of `create_engine` in the constructor is not caught
and propagates to the caller unchanged. -/
theorem construction_failure_propagates
    (driver : String → Except PyError Engine) (db_uri : String) (e : PyError)
    (hbad : driver db_uri = Except.error e) :
    FlightData.init driver db_uri = Except.error e := by
  unfold FlightData.init create_engine
  rw [hbad]

/-- Witness for C8 with a concrete failing driver. -/
theorem construction_failure_propagates_witness :
    FlightData.init (fun _ => Except.error (PyError.operationalError "bad connection string"))
        "sqlite:///nope"
      = Except.error (PyError.operationalError "bad connection string") :=
  construction_failure_propagates _ _ _ rfl

/-- Claim C9: `get_flights_by_date(1, 3, 2015)` binds day=1, month=3,
year=2015; on the spec's example dataset (with decoys that would match a
permuted binding) it returns exactly the record with ID 7 and DELAY 25. -/
theorem get_flights_by_date_binding_example :
    get_flights_by_date exampleDb 1 3 2015 =
      [[("ID", Value.int 7), ("ORIGIN_AIRPORT", Value.str "JFK"),
        ("DESTINATION_AIRPORT", Value.str "LAX"),
        ("AIRLINE", Value.int 3), ("DELAY", Value.int 25)]] ∧
    List.lookup "ID" ((get_flights_by_date exampleDb 1 3 2015).headD [])
      = some (Value.int 7) ∧
    List.lookup "DELAY" ((get_flights_by_date exampleDb 1 3 2015).headD [])
      = some (Value.int 25) := by
  decide

/-- Claim C10: every lookup method is total — for every behavior of the
engine, including a non-SQLAlchemy exception outside the spec's failure
taxonomy, the call returns a list (the query's rows or the empty list) and
never surfaces an exception; the bare `except Exception` clause turns a
non-database failure into an empty list plus an "Unexpected error"
diagnostic. -/
theorem lookup_methods_total (db : Database) (beh : EngineBehavior) (m : Method) :
    ((runMethod db beh m).rows = methodQuery db m ∨ (runMethod db beh m).rows = []) ∧
    (∀ msg, runMethod db (EngineBehavior.execFail (PyError.nonDatabaseError msg)) m
      = ⟨[], ["Unexpected error: " ++ msg], [ConnEvent.acquire, ConnEvent.release]⟩) := by
  constructor
  · cases beh with
    | ok => exact Or.inl rfl
    | connectFail e => exact Or.inr rfl
    | execFail e => exact Or.inr rfl
  · intro msg
    rfl

end SkySql
